import Mathlib

/-!
Shallow embedding of a FastAPI chat backend, covering the rate-limiting
middleware (`app/middleware/rate_limit.py`), the OpenRouter service
(`app/services/openrouter.py`) and the chat router / history service
(`app/routers/chat_db.py`, `app/services/chat_history_db.py`).

Python dictionaries become association lists, wall-clock time is modelled at
whole-second granularity (every quantity `check_rate_limit` computes factors
through `int(current_time)`), and exceptions become `Except` values.
-/

namespace RateLimit

/-- Python dataclass `RateLimitConfig` with its source defaults. -/
structure RateLimitConfig where
  requests_per_minute : Nat := 60
  requests_per_hour : Nat := 500
  chat_requests_per_minute : Nat := 20
  chat_requests_per_hour : Nat := 200
  max_burst : Nat := 10
  exempt_paths : List (List Char) :=
    ["/health".toList, "/metrics".toList, "/docs".toList, "/redoc".toList,
     "/openapi.json".toList]
deriving Repr, DecidableEq

/-- The module-level `rate_limit_config` instance (all defaults). -/
def rate_limit_config : RateLimitConfig := {}

/-- One client's windows: association list from window key to request count,
mirroring an inner Python `defaultdict(int)` keyed by integers. -/
abbrev Buckets := List (Nat × Nat)

namespace Buckets

/-- Python `d.get(key, 0)`. -/
def get (bs : Buckets) (k : Nat) : Nat :=
  match bs.find? (fun p => p.1 == k) with
  | some p => p.2
  | none => 0

/-- Python `d[key] = v` (replace the entry for `key`, or append one). -/
def put (bs : Buckets) (k v : Nat) : Buckets :=
  match bs with
  | [] => [(k, v)]
  | p :: rest => if p.1 = k then (k, v) :: rest else p :: put rest k v

end Buckets

/-- Two-level window table: client identifier to per-window counts,
mirroring `Dict[str, Dict[int, int]]`. -/
abbrev WindowMap := List (String × Buckets)

namespace WindowMap

/-- The windows recorded for client `c` (empty when absent). -/
def find (m : WindowMap) (c : String) : Buckets :=
  match m.find? (fun p => p.1 == c) with
  | some p => p.2
  | none => []

/-- Replace (or create) the windows of client `c`. -/
def put (m : WindowMap) (c : String) (bs : Buckets) : WindowMap :=
  match m with
  | [] => [(c, bs)]
  | p :: rest => if p.1 = c then (c, bs) :: rest else p :: put rest c bs

/-- The request count of client `c` in window `k`: `windows[c].get(k, 0)`. -/
def count (m : WindowMap) (c : String) (k : Nat) : Nat :=
  Buckets.get (find m c) k

/-- Python `windows[c][k] += 1`. -/
def bump (m : WindowMap) (c : String) (k : Nat) : WindowMap :=
  put m c (Buckets.put (find m c) k (Buckets.get (find m c) k + 1))

/-- One granularity of `_cleanup_old_windows`: for every client delete the
window keys `< bound` (the Python loop deletes `window_key < current - 1`),
then delete every client left with no windows. -/
def cleanup (m : WindowMap) (bound : Nat) : WindowMap :=
  (m.map (fun p => (p.1, p.2.filter (fun q => decide (bound ≤ q.1))))).filter
    (fun p => !p.2.isEmpty)

/-- The client identifiers present in a window table. -/
def keys (m : WindowMap) : List String := m.map Prod.fst

/-- Well-formedness that every Python dict enjoys by construction: no client
appears twice. -/
def WF (m : WindowMap) : Prop := (keys m).Nodup

end WindowMap

/-- The mutable state of a `RateLimiter` instance. -/
structure LimiterState where
  minute_windows : WindowMap
  hour_windows : WindowMap
  second_windows : WindowMap
  last_cleanup : Nat
deriving Repr, DecidableEq

/-- Constructor `RateLimiter.__init__` (with `time.time()` equal to `t`). -/
def RateLimiter.init (t : Nat) : LimiterState :=
  { minute_windows := [], hour_windows := [], second_windows := [], last_cleanup := t }

/-- Method `RateLimiter._cleanup_old_windows`: a no-op within 60 seconds of the last
pass (the guard compares the clock at whole-second granularity here); otherwise
prunes each granularity to keys `≥ current - 1` and stamps `last_cleanup`. -/
def cleanup_old_windows (s : LimiterState) (current_time : Nat) : LimiterState :=
  if current_time - s.last_cleanup < 60 then s
  else
    { minute_windows := WindowMap.cleanup s.minute_windows (current_time / 60 - 1)
      hour_windows := WindowMap.cleanup s.hour_windows (current_time / 3600 - 1)
      second_windows := WindowMap.cleanup s.second_windows (current_time - 1)
      last_cleanup := current_time }

/-- The `X-RateLimit-*` info-header dictionary built by `check_rate_limit`;
`retry_after` is `some` exactly when the Python code adds a `Retry-After` key. -/
structure RateHeaders where
  limit_minute : Nat
  remaining_minute : Int
  limit_hour : Nat
  remaining_hour : Int
  retry_after : Option Nat
deriving Repr, DecidableEq

/-- The `(allowed, reason, headers)` triple returned by `check_rate_limit`,
together with the limiter state after the call. -/
structure CheckResult where
  allowed : Bool
  reason : String
  headers : RateHeaders
  state : LimiterState
deriving Repr, DecidableEq

/-- Effective minute ceiling: `config.chat_requests_per_minute` when chat,
else `config.requests_per_minute`. -/
def minute_limit_of (config : RateLimitConfig) (isChat : Bool) : Nat :=
  if isChat then config.chat_requests_per_minute else config.requests_per_minute

/-- Effective hour ceiling: `config.chat_requests_per_hour` when chat,
else `config.requests_per_hour`. -/
def hour_limit_of (config : RateLimitConfig) (isChat : Bool) : Nat :=
  if isChat then config.chat_requests_per_hour else config.requests_per_hour

/-- Denial reason of the burst branch. -/
def burst_reason : String := "Burst limit exceeded. Please slow down."

/-- Denial reason of the minute branch (an f-string over the limit). -/
def minute_reason (limit : Nat) : String :=
  "Rate limit exceeded. Max " ++ toString limit ++ " requests per minute."

/-- Denial reason of the hour branch (an f-string over the limit). -/
def hour_reason (limit : Nat) : String :=
  "Hourly rate limit exceeded. Max " ++ toString limit ++ " requests per hour."

/-- Method `RateLimiter.check_rate_limit(client_ip, is_chat, config)` at wall-clock
time `current_time`.  The reads are modelled purely: indexing the outer
`defaultdict` in Python also inserts an empty inner dict for `client_ip`, a
structural effect with no influence on any count. -/
def check_rate_limit (s : LimiterState) (client_ip : String) (isChat : Bool)
    (config : RateLimitConfig) (current_time : Nat) : CheckResult :=
  let s1 := cleanup_old_windows s current_time
  let current_second := current_time
  let current_minute := current_time / 60
  let current_hour := current_time / 3600
  let second_count := WindowMap.count s1.second_windows client_ip current_second
  let minute_count := WindowMap.count s1.minute_windows client_ip current_minute
  let hour_count := WindowMap.count s1.hour_windows client_ip current_hour
  let minute_limit := minute_limit_of config isChat
  let hour_limit := hour_limit_of config isChat
  let headers : RateHeaders :=
    { limit_minute := minute_limit
      remaining_minute := max 0 ((minute_limit : Int) - minute_count - 1)
      limit_hour := hour_limit
      remaining_hour := max 0 ((hour_limit : Int) - hour_count - 1)
      retry_after := none }
  if second_count ≥ config.max_burst then
    { allowed := false, reason := burst_reason, headers := headers, state := s1 }
  else if minute_count ≥ minute_limit then
    { allowed := false
      reason := minute_reason minute_limit
      headers := { headers with retry_after := some (60 - current_time % 60) }
      state := s1 }
  else if hour_count ≥ hour_limit then
    { allowed := false
      reason := hour_reason hour_limit
      headers := { headers with retry_after := some (3600 - current_time % 3600) }
      state := s1 }
  else
    { allowed := true
      reason := ""
      headers := headers
      state :=
        { s1 with
          second_windows := WindowMap.bump s1.second_windows client_ip current_second
          minute_windows := WindowMap.bump s1.minute_windows client_ip current_minute
          hour_windows := WindowMap.bump s1.hour_windows client_ip current_hour } }

/-- No client identifier appears twice in any of the three window tables —
an invariant every state reachable from Python dictionaries has. -/
def StateWF (s : LimiterState) : Prop :=
  WindowMap.WF s.minute_windows ∧ WindowMap.WF s.hour_windows ∧
    WindowMap.WF s.second_windows

/-- An inbound HTTP request as seen by `RateLimitMiddleware.dispatch`.
`client_ip` abstracts `_get_client_ip` (proxy-header extraction). -/
structure Request where
  path : List Char
  method : String
  client_ip : String
deriving Repr, DecidableEq

/-- The `session_management_paths` tuple in `dispatch`. -/
def session_management_paths : List (List Char) :=
  ["/sessions".toList, "/new-session".toList, "/switch".toList, "/clear".toList]

/-- The `is_chat` flag computed in `dispatch`:
`path.endswith("/api/chat") and request.method == "POST" and not
is_session_operation`. -/
def is_chat_request (path : List Char) (method : String) : Bool :=
  decide ("/api/chat".toList <:+ path) && (method == "POST") &&
    !(session_management_paths.any (fun p => decide (p <:+: path)))

/-- The structured JSON error body of a 429 response. -/
structure ErrorBody where
  error : String
  detail : String
  type : String
deriving Repr, DecidableEq

/-- Result of `RateLimitMiddleware.dispatch`.  `exempt` forwards the request
untouched; `ok h` forwards it and attaches the headers `h` to the downstream
response; `tooMany` is the early 429 JSON response. -/
inductive MiddlewareResult where
  | exempt
  | ok (headers : RateHeaders)
  | tooMany (status : Nat) (body : ErrorBody) (headers : RateHeaders)
deriving Repr, DecidableEq

/-- The rate-limit headers attached to the response, when any. -/
def MiddlewareResult.resultHeaders : MiddlewareResult → Option RateHeaders
  | .exempt => none
  | .ok h => some h
  | .tooMany _ _ h => some h

/-- Method `RateLimitMiddleware.dispatch` at wall-clock time `current_time` (the
downstream application and header stringification are abstracted away). -/
def dispatch (s : LimiterState) (config : RateLimitConfig) (req : Request)
    (current_time : Nat) : MiddlewareResult × LimiterState :=
  if req.path ∈ config.exempt_paths then (.exempt, s)
  else
    let r := check_rate_limit s req.client_ip
      (is_chat_request req.path req.method) config current_time
    if r.allowed then (.ok r.headers, r.state)
    else
      (.tooMany 429
        { error := "rate_limit_exceeded", detail := r.reason, type := "TooManyRequests" }
        r.headers, r.state)

/-- One `check_rate_limit` invocation in a trace. -/
structure Call where
  client : String
  chat : Bool
  time : Nat
deriving Repr, DecidableEq

/-- Run a sequence of `check_rate_limit` calls against the shared limiter,
pairing every call with its admit/deny outcome. -/
def runChecks (config : RateLimitConfig) (s : LimiterState) :
    List Call → List (Call × Bool)
  | [] => []
  | a :: rest =>
    let r := check_rate_limit s a.client a.chat config a.time
    (a, r.allowed) :: runChecks config r.state rest

/-- The outcomes of client `A`'s calls within a paired trace. -/
def clientOutcomes (A : String) (l : List (Call × Bool)) : List Bool :=
  (l.filter (fun p => p.1.client == A)).map Prod.snd

/-- State after `n` successive `check_rate_limit` calls by the same client
within the same wall-clock second, starting from `s`. -/
def checkN (cfg : RateLimitConfig) (s : LimiterState) (c : String) (ic : Bool)
    (t : Nat) : Nat → LimiterState
  | 0 => s
  | n + 1 => (check_rate_limit (checkN cfg s c ic t n) c ic cfg t).state

/-- A state in which client `b` holds a stale minute bucket while client `a`
has saturated its burst budget; `last_cleanup` is old enough that the next
call triggers a cleanup pass. -/
def c3_state : LimiterState :=
  { minute_windows := [("b", [(0, 5)])], hour_windows := [],
    second_windows := [("a", [(200, 10)])], last_cleanup := 0 }

/-- A state in which client `a` has saturated its burst budget for second 50
and no cleanup is due. -/
def c4_state : LimiterState :=
  { minute_windows := [], hour_windows := [],
    second_windows := [("a", [(50, 10)])], last_cleanup := 50 }

/-- A small interleaved two-client trace with non-decreasing times. -/
def c6_calls : List Call :=
  [{ client := "a", chat := false, time := 5 },
   { client := "b", chat := false, time := 5 },
   { client := "a", chat := true, time := 70 }]

/-- Two limiter states agree on all of client `A`'s windows that are still
within the retention horizon of time `b` (cleanup passes at times `≤ b` only
ever touch keys below these bounds). -/
def Agree (A : String) (S S' : LimiterState) (b : Nat) : Prop :=
  (∀ k, b - 1 ≤ k →
    WindowMap.count S.second_windows A k = WindowMap.count S'.second_windows A k) ∧
  (∀ k, b / 60 - 1 ≤ k →
    WindowMap.count S.minute_windows A k = WindowMap.count S'.minute_windows A k) ∧
  (∀ k, b / 3600 - 1 ≤ k →
    WindowMap.count S.hour_windows A k = WindowMap.count S'.hour_windows A k)

end RateLimit

namespace OpenRouter

/-- A raised Python exception together with the outcome label the service
reports to `track_openrouter_request`. -/
structure Failure where
  py_type : String
  message : String
  track_label : String
deriving Repr, DecidableEq

/-- The parsed JSON body of an OpenRouter `/chat/completions` response:
`error.message` when present, and the (defaulted) `message.content` of each
choice. -/
structure ApiResponse where
  error_message : Option String
  choices : List String
deriving Repr, DecidableEq

/-- Outcome of the underlying `httpx` POST: a timeout
(`httpx.TimeoutException`), another transport error (`httpx.HTTPError`), or an
HTTP response with a status code and parsed body. -/
inductive HttpOutcome where
  | timeout (detail : String)
  | transport_error (detail : String)
  | response (status : Nat) (body : ApiResponse)
deriving Repr, DecidableEq

/-- Message of the exception raised on `httpx.TimeoutException`. -/
def timeout_message : String := "Request to OpenRouter timed out. Please try again."

/-- Default for a missing `error.message` field. -/
def unknown_error : String := "Unknown error"

/-- The failure surfaced by the timeout handler of `send_message`. -/
def timeout_failure : Failure :=
  { py_type := "Exception", message := timeout_message, track_label := "timeout" }

/-- Error-flow of `OpenRouterService.send_message`: the non-200 branch raises
`Exception` (re-raised by the generic handler, label "error"), empty `choices`
likewise; `httpx.TimeoutException` and other `httpx.HTTPError`s are caught by
their dedicated handlers.  On success the first choice's content is returned. -/
def send_message (o : HttpOutcome) : Except Failure String :=
  match o with
  | .timeout _ => .error timeout_failure
  | .transport_error d =>
    .error
      { py_type := "Exception"
        message := "HTTP error communicating with OpenRouter: " ++ d
        track_label := "http_error" }
  | .response status body =>
    if status ≠ 200 then
      .error
        { py_type := "Exception"
          message := "OpenRouter API error: " ++ body.error_message.getD unknown_error
          track_label := "error" }
    else
      match body.choices with
      | [] =>
        .error
          { py_type := "Exception"
            message := "No response choices returned from OpenRouter"
            track_label := "error" }
      | c :: _ => .ok c

/-- A model entry of the gateway's `/models` JSON, after the dictionary
lookups and float parses of `get_available_models` (prices as exact
rationals). -/
structure RawModel where
  id : List Char
  name : Option (List Char) := none
  description : Option String := none
  context_length : Option Nat := none
  prompt_price : ℚ := 1
  completion_price : ℚ := 1
  modality : List Char := []
deriving Repr, DecidableEq

/-- The `ModelInfo` schema object. -/
structure ModelInfo where
  id : List Char
  name : List Char
  description : Option String := none
  context_length : Option Nat := none
  supports_images : Bool := false
  pricing : Option (ℚ × ℚ) := none
deriving Repr, DecidableEq

/-- The static list `OpenRouterService.FREE_MODELS`. -/
def FREE_MODELS : List (List Char) :=
  ["xiaomi/mimo-v2-flash:free".toList,
   "mistralai/devstral-2512:free".toList,
   "deepseek/deepseek-r1-0528:free".toList,
   "qwen/qwen3-coder:free".toList,
   "z-ai/glm-4.5-air:free".toList,
   "tngtech/tng-r1t-chimera:free".toList,
   "tngtech/deepseek-r1t-chimera:free".toList,
   "tngtech/deepseek-r1t2-chimera:free".toList,
   "google/gemma-3-27b-it:free".toList,
   "meta-llama/llama-3.3-70b-instruct:free".toList]

/-- The static list `OpenRouterService.MULTIMODAL_MODELS`. -/
def MULTIMODAL_MODELS : List (List Char) :=
  ["allenai/molmo-2-8b:free".toList,
   "nvidia/nemotron-nano-12b-v2-vl:free".toList]

/-- Python `str.title()`: uppercase every character that follows a
non-alphabetic one, lowercase the rest.  `prevAlpha` records whether the
previous character was alphabetic. -/
def titleChars : List Char → Bool → List Char
  | [], _ => []
  | c :: rest, prevAlpha =>
    (if prevAlpha then c.toLower else c.toUpper) :: titleChars rest c.isAlpha

/-- Python `model_id.split("/")[-1]`: the segment after the last slash. -/
def lastSegment (l : List Char) : List Char :=
  (l.foldl (fun acc c => if c = '/' then [] else acc ++ [c]) [])

/-- Python `.replace(":free", "")`: delete every occurrence of `":free"`. -/
def stripFree (l : List Char) : List Char :=
  match l with
  | [] => []
  | c :: rest =>
    if ":free".toList <+: (c :: rest) then stripFree (rest.drop 4)
    else c :: stripFree rest
termination_by l.length
decreasing_by
  · simp [List.length_drop]
    omega
  · simp

/-- The display name built for fallback entries:
`model_id.split("/")[-1].replace(":free", "").replace("-", " ").title()`. -/
def fallback_name (mid : List Char) : List Char :=
  titleChars ((stripFree (lastSegment mid)).map (fun c => if c = '-' then ' ' else c)) false

/-- The static fallback list built from `FREE_MODELS`. -/
def fallback_models : List ModelInfo :=
  FREE_MODELS.map (fun mid =>
    { id := mid
      name := fallback_name mid
      supports_images := decide (mid ∈ MULTIMODAL_MODELS) })

/-- The `is_free` test of `get_available_models`. -/
def is_free_model (m : RawModel) : Bool :=
  (decide (m.prompt_price = 0) && decide (m.completion_price = 0)) ||
    decide (":free".toList <:+: m.id) || decide ("/free".toList <:+: m.id)

/-- The `ModelInfo` built for a free gateway model. -/
def to_model_info (m : RawModel) : ModelInfo :=
  { id := m.id
    name := m.name.getD m.id
    description := m.description
    context_length := m.context_length
    supports_images :=
      decide (m.id ∈ MULTIMODAL_MODELS) ||
        decide ("vision".toList <:+: m.id.map Char.toLower) ||
        decide ("image".toList <:+: m.modality.map Char.toLower)
    pricing := some (m.prompt_price, m.completion_price) }

/-- The free-model filter applied to a successful gateway listing. -/
def free_filter (data : List RawModel) : List ModelInfo :=
  (data.filter is_free_model).map to_model_info

/-- Outcome of the gateway `/models` call: an `httpx.HTTPError` (including
`raise_for_status` on 4xx/5xx) or a parsed model list. -/
inductive ModelsOutcome where
  | failure (detail : String)
  | success (data : List RawModel)
deriving Repr, DecidableEq

/-- Method `OpenRouterService.get_available_models`: on error the static fallback;
on success the free-filtered list, except that an empty filter result also
falls back to the static list. -/
def get_available_models (o : ModelsOutcome) : List ModelInfo :=
  match o with
  | .failure _ => fallback_models
  | .success data =>
    let free := free_filter data
    if free.isEmpty then fallback_models else free

/-- A transport-error detail used by the witnesses. -/
def http_detail : String := "connection reset"

/-- A paid model entry (default prices 1). -/
def c9_paid : RawModel := { id := "openai/gpt-4o".toList }

/-- A free model entry (id carries the `:free` marker). -/
def c9_free : RawModel := { id := "foo/bar:free".toList }

/-- A gateway-failure detail used by the witnesses. -/
def c9_err_detail : String := "gateway down"

end OpenRouter

namespace ChatDB

/-- Errors a chat-router endpoint can surface (`HTTPException` status
classes used in `chat_db.py`). -/
inductive RouteError where
  | notFound (detail : String)
  | badRequest (detail : String)
  | internalError (detail : String)
deriving Repr, DecidableEq

/-- The `ChatResponse` payload of a successful send (message content,
`success` flag, and the session id echoed back). -/
structure ChatResponse where
  message : String
  success : Bool
  session_id : Nat
deriving Repr, DecidableEq

/-- Function `parse_session_id`: `None`/empty strings give `None`; otherwise the
result of `uuid.UUID(session_id)`, with `ValueError` mapped to `None`.
`uuid_of` abstracts the standard-library UUID parser (UUIDs as `Nat`). -/
def parse_session_id (uuid_of : String → Option Nat) :
    Option String → Option Nat
  | none => none
  | some s => if s = "" then none else uuid_of s

/-- Method `ChatHistoryDBService.get_or_create_session`: the session table is
abstracted to its list of ids and `fresh` is the id the database would assign
to a newly created session.  Returns the updated table and the resolved id. -/
def get_or_create_session (db : List Nat) (session_id : Option Nat)
    (fresh : Nat) : List Nat × Nat :=
  match session_id with
  | some i => if i ∈ db then (db, i) else (db ++ [fresh], fresh)
  | none => (db ++ [fresh], fresh)

/-- The `send_chat_message` endpoint: resolve the session with
`parse_session_id` and `get_or_create_session`, then forward to the gateway;
any raised exception becomes an HTTP 500 (`internalError`). -/
def send_chat_message (db : List Nat) (uuid_of : String → Option Nat)
    (session_param : Option String) (fresh : Nat)
    (llm : Except OpenRouter.Failure String) : Except RouteError ChatResponse :=
  let sid := parse_session_id uuid_of session_param
  let resolved := (get_or_create_session db sid fresh).2
  match llm with
  | .ok content => .ok { message := content, success := true, session_id := resolved }
  | .error f => .error (.internalError f.message)

/-- Detail string of the router's 404 responses. -/
def session_not_found : String := "Session not found"

/-- Session resolution of the `get_chat_history` endpoint (which, unlike
`send_chat_message`, raises 404 for an unknown parseable session id). -/
def get_chat_history (db : List Nat) (uuid_of : String → Option Nat)
    (session_param : Option String) (current : Option Nat) (fresh : Nat) :
    Except RouteError Nat :=
  match parse_session_id uuid_of session_param with
  | some sid => if sid ∈ db then .ok sid else .error (.notFound session_not_found)
  | none =>
    match current with
    | some c => .ok c
    | none => .ok fresh

/-- A session-id query parameter that is not a parseable UUID. -/
def c10_param : String := "not-a-uuid"

/-- A gateway reply used by the witness. -/
def c10_reply : String := "hello"

end ChatDB

namespace RateLimit

namespace Buckets

theorem get_nil (k : Nat) : get [] k = 0 := rfl

theorem get_cons (p : Nat × Nat) (bs : Buckets) (k : Nat) :
    get (p :: bs) k = if p.1 = k then p.2 else get bs k := by
  simp only [get, List.find?_cons]
  cases h : (p.1 == k)
  · have h' : ¬ p.1 = k := by simpa using h
    simp [h']
  · have h' : p.1 = k := by simpa using h
    simp [h']

theorem put_cons_key (p : Nat × Nat) (bs : Buckets) (k v : Nat) :
    put (p :: bs) k v = if p.1 = k then (k, v) :: bs else p :: put bs k v := rfl

theorem get_put_self (bs : Buckets) (k v : Nat) : get (put bs k v) k = v := by
  induction bs with
  | nil => simp [get_cons, put]
  | cons p rest ih =>
    by_cases h : p.1 = k
    · simp [put_cons_key, h, get_cons]
    · simp [put_cons_key, h, get_cons, ih]

theorem get_put_ne (bs : Buckets) {k k' : Nat} (v : Nat) (h : k' ≠ k) :
    get (put bs k v) k' = get bs k' := by
  induction bs with
  | nil => simp [get_cons, put, Ne.symm h]
  | cons p rest ih =>
    by_cases hp : p.1 = k
    · simp [put_cons_key, hp, get_cons, Ne.symm h, hp ▸ (Ne.symm h)]
    · simp [put_cons_key, hp, get_cons, ih]

theorem get_filter_le (bs : Buckets) {b k : Nat} (h : b ≤ k) :
    get (bs.filter (fun q => decide (b ≤ q.1))) k = get bs k := by
  induction bs with
  | nil => simp
  | cons p rest ih =>
    by_cases hp : b ≤ p.1
    · simp [List.filter_cons, hp, get_cons, ih]
    · have hk : p.1 ≠ k := fun hk => hp (hk ▸ h)
      simp [List.filter_cons, hp, get_cons, hk, ih]

theorem get_filter_lt (bs : Buckets) {b k : Nat} (h : k < b) :
    get (bs.filter (fun q => decide (b ≤ q.1))) k = 0 := by
  induction bs with
  | nil => simp [get]
  | cons p rest ih =>
    by_cases hp : b ≤ p.1
    · have hk : p.1 ≠ k := fun hk => Nat.lt_irrefl k (Nat.lt_of_lt_of_le h (hk ▸ hp))
      simp [List.filter_cons, hp, get_cons, hk, ih]
    · simp [List.filter_cons, hp, ih]

theorem get_eq_zero_of_filter_nil (bs : Buckets) {b k : Nat}
    (hnil : bs.filter (fun q => decide (b ≤ q.1)) = []) (h : b ≤ k) :
    get bs k = 0 := by
  induction bs with
  | nil => simp [get]
  | cons p rest ih =>
    rw [List.filter_cons] at hnil
    by_cases hp : b ≤ p.1
    · rw [if_pos (by simpa using hp)] at hnil
      simp at hnil
    · rw [if_neg (by simpa using hp)] at hnil
      have hk : p.1 ≠ k := fun hk => hp (hk ▸ h)
      simp [get_cons, hk, ih hnil]

end Buckets

namespace WindowMap

theorem find_cons (p : String × Buckets) (m : WindowMap) (c : String) :
    find (p :: m) c = if p.1 = c then p.2 else find m c := by
  simp only [find, List.find?_cons]
  cases h : (p.1 == c)
  · have h' : ¬ p.1 = c := by simpa using h
    simp [h']
  · have h' : p.1 = c := by simpa using h
    simp [h']

theorem put_cons_client (p : String × Buckets) (m : WindowMap) (c : String) (bs : Buckets) :
    put (p :: m) c bs = if p.1 = c then (c, bs) :: m else p :: put m c bs := rfl

theorem find_put_self (m : WindowMap) (c : String) (bs : Buckets) :
    find (put m c bs) c = bs := by
  induction m with
  | nil => simp [find_cons, put]
  | cons p rest ih =>
    by_cases h : p.1 = c
    · simp [put_cons_client, h, find_cons]
    · simp [put_cons_client, h, find_cons, ih]

theorem find_put_ne (m : WindowMap) {c c' : String} (bs : Buckets) (h : c' ≠ c) :
    find (put m c bs) c' = find m c' := by
  induction m with
  | nil => simp [find_cons, put, Ne.symm h]
  | cons p rest ih =>
    by_cases hp : p.1 = c
    · simp [put_cons_client, hp, find_cons, Ne.symm h]
    · simp [put_cons_client, hp, find_cons, ih]

theorem count_bump_self (m : WindowMap) (c : String) (k : Nat) :
    count (bump m c k) c k = count m c k + 1 := by
  simp [count, bump, find_put_self, Buckets.get_put_self]

theorem count_bump_ne (m : WindowMap) {c c' : String} {k k' : Nat}
    (h : c' ≠ c ∨ k' ≠ k) :
    count (bump m c k) c' k' = count m c' k' := by
  by_cases hc : c' = c
  · have hk : k' ≠ k := h.resolve_left (fun hn => hn hc)
    simp [count, bump, hc, find_put_self, Buckets.get_put_ne _ _ hk]
  · simp [count, bump, find_put_ne _ _ hc]

theorem count_eq_zero_of_not_mem (m : WindowMap) {c : String} (k : Nat)
    (h : c ∉ keys m) : count m c k = 0 := by
  induction m with
  | nil => simp [count, find, Buckets.get]
  | cons p rest ih =>
    simp only [keys, List.map_cons, List.mem_cons, not_or] at h
    have hp : p.1 ≠ c := fun he => h.1 he.symm
    have := ih h.2
    simpa [count, find_cons, hp] using this

theorem keys_cleanup_sublist (m : WindowMap) (b : Nat) :
    List.Sublist (keys (cleanup m b)) (keys m) := by
  have h1 : List.Sublist
      ((m.map (fun p => (p.1, p.2.filter (fun q => decide (b ≤ q.1))))).filter
        (fun p => !p.2.isEmpty))
      (m.map (fun p => (p.1, p.2.filter (fun q => decide (b ≤ q.1))))) :=
    List.filter_sublist _
  have h2 := h1.map Prod.fst
  rw [List.map_map] at h2
  simpa [cleanup, keys] using h2

theorem WF_cleanup (m : WindowMap) (b : Nat) (h : WF m) : WF (cleanup m b) :=
  (keys_cleanup_sublist m b).nodup h

theorem mem_keys_put (m : WindowMap) (c : String) (bs : Buckets) :
    ∀ x ∈ keys (put m c bs), x ∈ keys m ∨ x = c := by
  induction m with
  | nil => simp [keys, put]
  | cons p rest ih =>
    intro x hx
    by_cases hp : p.1 = c
    · simp only [put, if_pos hp, keys, List.map_cons, List.mem_cons] at hx
      rcases hx with hx | hx
      · exact Or.inr hx
      · exact Or.inl (by simp [keys, hx])
    · simp only [put, if_neg hp, keys, List.map_cons, List.mem_cons] at hx
      rcases hx with hx | hx
      · exact Or.inl (by simp [keys, hx])
      · rcases ih x hx with h | h
        · exact Or.inl (by simp [keys]; exact Or.inr (by simpa [keys] using h))
        · exact Or.inr h

theorem WF_put (m : WindowMap) (c : String) (bs : Buckets) (h : WF m) :
    WF (put m c bs) := by
  induction m with
  | nil => simp [WF, keys, put]
  | cons p rest ih =>
    rw [WF, keys] at h
    simp only [List.map_cons, List.nodup_cons] at h
    by_cases hp : p.1 = c
    · simp only [WF, keys, put, if_pos hp, List.map_cons, List.nodup_cons]
      exact ⟨hp ▸ h.1, h.2⟩
    · have hrest := ih h.2
      simp only [WF, keys, put, if_neg hp, List.map_cons, List.nodup_cons]
      constructor
      · intro hmem
        rcases mem_keys_put rest c bs _ hmem with hm | hm
        · exact h.1 hm
        · exact hp hm
      · exact hrest

theorem WF_bump (m : WindowMap) (c : String) (k : Nat) (h : WF m) :
    WF (bump m c k) := WF_put _ _ _ h

theorem cleanup_cons_of_nil (p : String × Buckets) (m : WindowMap) {b : Nat}
    (hemp : p.2.filter (fun q => decide (b ≤ q.1)) = []) :
    cleanup (p :: m) b = cleanup m b := by
  simp [cleanup, hemp]

theorem cleanup_cons_of_ne_nil (p : String × Buckets) (m : WindowMap) {b : Nat}
    (hemp : p.2.filter (fun q => decide (b ≤ q.1)) ≠ []) :
    cleanup (p :: m) b =
      (p.1, p.2.filter (fun q => decide (b ≤ q.1))) :: cleanup m b := by
  simp only [cleanup, List.map_cons, List.filter_cons]
  rw [if_pos]
  simp [List.isEmpty_iff, hemp]

theorem count_cleanup_le (m : WindowMap) {b k : Nat} (c : String)
    (hm : WF m) (h : b ≤ k) : count (cleanup m b) c k = count m c k := by
  induction m with
  | nil => simp [cleanup, count, find, Buckets.get]
  | cons p rest ih =>
    rw [WF, keys] at hm
    simp only [List.map_cons, List.nodup_cons] at hm
    have ihr := ih hm.2
    by_cases hemp : p.2.filter (fun q => decide (b ≤ q.1)) = []
    · rw [cleanup_cons_of_nil p rest hemp]
      by_cases hp : p.1 = c
      · have hnot : c ∉ keys (cleanup rest b) := fun hmem =>
          hm.1 (hp ▸ (keys_cleanup_sublist rest b).subset hmem)
        rw [count_eq_zero_of_not_mem _ _ hnot]
        have hz : Buckets.get p.2 k = 0 := Buckets.get_eq_zero_of_filter_nil _ hemp h
        simp [count, find_cons, hp, hz]
      · rw [ihr]
        simp [count, find_cons, hp]
    · rw [cleanup_cons_of_ne_nil p rest hemp]
      by_cases hp : p.1 = c
      · simp [count, find_cons, hp, Buckets.get_filter_le _ h]
      · simp [count, find_cons, hp]
        simpa [count] using ihr

theorem count_cleanup_lt (m : WindowMap) {b k : Nat} (c : String)
    (h : k < b) : count (cleanup m b) c k = 0 := by
  induction m with
  | nil => simp [cleanup, count, find, Buckets.get]
  | cons p rest ih =>
    by_cases hemp : p.2.filter (fun q => decide (b ≤ q.1)) = []
    · rw [cleanup_cons_of_nil p rest hemp, ih]
    · rw [cleanup_cons_of_ne_nil p rest hemp]
      by_cases hp : p.1 = c
      · simp [count, find_cons, hp, Buckets.get_filter_lt _ h]
      · simp [count, find_cons, hp]
        simpa [count] using ih

theorem mem_cleanup (m : WindowMap) (b : Nat) :
    ∀ e ∈ cleanup m b, e.2 ≠ [] ∧ ∀ q ∈ e.2, b ≤ q.1 := by
  intro e he
  simp only [cleanup, List.mem_filter, List.mem_map] at he
  obtain ⟨⟨p, _, hpe⟩, hne⟩ := he
  constructor
  · intro hnil
    rw [hnil] at hne
    simp at hne
  · intro q hq
    rw [← hpe] at hq
    simp only [List.mem_filter, decide_eq_true_eq] at hq
    exact hq.2

end WindowMap

theorem StateWF_of_nodup (s : LimiterState)
    (h : (WindowMap.keys s.minute_windows).Nodup ∧
      (WindowMap.keys s.hour_windows).Nodup ∧
      (WindowMap.keys s.second_windows).Nodup) : StateWF s := h

theorem StateWF_init (t : Nat) : StateWF (RateLimiter.init t) := by
  refine ⟨?_, ?_, ?_⟩ <;> simp [RateLimiter.init, WindowMap.WF, WindowMap.keys]

theorem StateWF_cleanup_old (s : LimiterState) (t : Nat) (h : StateWF s) :
    StateWF (cleanup_old_windows s t) := by
  unfold cleanup_old_windows
  split
  · exact h
  · exact ⟨WindowMap.WF_cleanup _ _ h.1, WindowMap.WF_cleanup _ _ h.2.1,
      WindowMap.WF_cleanup _ _ h.2.2⟩

theorem StateWF_check (s : LimiterState) (c : String) (ic : Bool)
    (cfg : RateLimitConfig) (t : Nat) (h : StateWF s) :
    StateWF (check_rate_limit s c ic cfg t).state := by
  have h1 := StateWF_cleanup_old s t h
  simp only [check_rate_limit]
  split_ifs <;>
    first
      | exact h1
      | exact ⟨WindowMap.WF_bump _ _ _ h1.1, WindowMap.WF_bump _ _ _ h1.2.1,
          WindowMap.WF_bump _ _ _ h1.2.2⟩

theorem count_cleanup_old_second (s : LimiterState) {t k : Nat} (c : String)
    (hw : WindowMap.WF s.second_windows) (hk : t - 1 ≤ k) :
    WindowMap.count (cleanup_old_windows s t).second_windows c k
      = WindowMap.count s.second_windows c k := by
  unfold cleanup_old_windows
  split
  · rfl
  · exact WindowMap.count_cleanup_le _ _ hw hk

theorem count_cleanup_old_minute (s : LimiterState) {t k : Nat} (c : String)
    (hw : WindowMap.WF s.minute_windows) (hk : t / 60 - 1 ≤ k) :
    WindowMap.count (cleanup_old_windows s t).minute_windows c k
      = WindowMap.count s.minute_windows c k := by
  unfold cleanup_old_windows
  split
  · rfl
  · exact WindowMap.count_cleanup_le _ _ hw hk

theorem count_cleanup_old_hour (s : LimiterState) {t k : Nat} (c : String)
    (hw : WindowMap.WF s.hour_windows) (hk : t / 3600 - 1 ≤ k) :
    WindowMap.count (cleanup_old_windows s t).hour_windows c k
      = WindowMap.count s.hour_windows c k := by
  unfold cleanup_old_windows
  split
  · rfl
  · exact WindowMap.count_cleanup_le _ _ hw hk

/-- The state after a call: the (possibly cleaned) windows, with all three
current buckets of the caller bumped exactly when the call was admitted. -/
theorem check_state_eq (s : LimiterState) (c : String) (ic : Bool)
    (cfg : RateLimitConfig) (t : Nat) :
    (check_rate_limit s c ic cfg t).state =
      (if (check_rate_limit s c ic cfg t).allowed then
        { cleanup_old_windows s t with
          second_windows :=
            WindowMap.bump (cleanup_old_windows s t).second_windows c t
          minute_windows :=
            WindowMap.bump (cleanup_old_windows s t).minute_windows c (t / 60)
          hour_windows :=
            WindowMap.bump (cleanup_old_windows s t).hour_windows c (t / 3600) }
      else cleanup_old_windows s t) := by
  simp only [check_rate_limit]
  split_ifs <;> first | rfl | (exfalso; simp_all)

theorem check_count_second (s : LimiterState) (c c' : String) (ic : Bool)
    (cfg : RateLimitConfig) {t k : Nat} (hWF : StateWF s) (hk : t - 1 ≤ k) :
    WindowMap.count (check_rate_limit s c ic cfg t).state.second_windows c' k
      = WindowMap.count s.second_windows c' k
        + (if (check_rate_limit s c ic cfg t).allowed = true ∧ c' = c ∧ k = t
           then 1 else 0) := by
  have hcl := count_cleanup_old_second s (t := t) c' hWF.2.2 hk
  rw [check_state_eq]
  by_cases ha : (check_rate_limit s c ic cfg t).allowed = true
  · rw [if_pos ha]
    show WindowMap.count
      (WindowMap.bump (cleanup_old_windows s t).second_windows c t) c' k = _
    by_cases hcc : c' = c ∧ k = t
    · obtain ⟨hc, hkt⟩ := hcc
      subst hc
      subst hkt
      rw [WindowMap.count_bump_self, hcl]
      simp [ha]
    · have hor : c' ≠ c ∨ k ≠ t := by tauto
      rw [WindowMap.count_bump_ne _ hor, hcl]
      simp [hcc]
  · rw [if_neg ha, hcl]
    simp [ha]

theorem check_count_minute (s : LimiterState) (c c' : String) (ic : Bool)
    (cfg : RateLimitConfig) {t k : Nat} (hWF : StateWF s) (hk : t / 60 - 1 ≤ k) :
    WindowMap.count (check_rate_limit s c ic cfg t).state.minute_windows c' k
      = WindowMap.count s.minute_windows c' k
        + (if (check_rate_limit s c ic cfg t).allowed = true ∧ c' = c ∧ k = t / 60
           then 1 else 0) := by
  have hcl := count_cleanup_old_minute s (t := t) c' hWF.1 hk
  rw [check_state_eq]
  by_cases ha : (check_rate_limit s c ic cfg t).allowed = true
  · rw [if_pos ha]
    show WindowMap.count
      (WindowMap.bump (cleanup_old_windows s t).minute_windows c (t / 60)) c' k = _
    by_cases hcc : c' = c ∧ k = t / 60
    · obtain ⟨hc, hkt⟩ := hcc
      subst hc
      subst hkt
      rw [WindowMap.count_bump_self, hcl]
      simp [ha]
    · have hor : c' ≠ c ∨ k ≠ t / 60 := by tauto
      rw [WindowMap.count_bump_ne _ hor, hcl]
      simp [hcc]
  · rw [if_neg ha, hcl]
    simp [ha]

theorem check_count_hour (s : LimiterState) (c c' : String) (ic : Bool)
    (cfg : RateLimitConfig) {t k : Nat} (hWF : StateWF s) (hk : t / 3600 - 1 ≤ k) :
    WindowMap.count (check_rate_limit s c ic cfg t).state.hour_windows c' k
      = WindowMap.count s.hour_windows c' k
        + (if (check_rate_limit s c ic cfg t).allowed = true ∧ c' = c ∧ k = t / 3600
           then 1 else 0) := by
  have hcl := count_cleanup_old_hour s (t := t) c' hWF.2.1 hk
  rw [check_state_eq]
  by_cases ha : (check_rate_limit s c ic cfg t).allowed = true
  · rw [if_pos ha]
    show WindowMap.count
      (WindowMap.bump (cleanup_old_windows s t).hour_windows c (t / 3600)) c' k = _
    by_cases hcc : c' = c ∧ k = t / 3600
    · obtain ⟨hc, hkt⟩ := hcc
      subst hc
      subst hkt
      rw [WindowMap.count_bump_self, hcl]
      simp [ha]
    · have hor : c' ≠ c ∨ k ≠ t / 3600 := by tauto
      rw [WindowMap.count_bump_ne _ hor, hcl]
      simp [hcc]
  · rw [if_neg ha, hcl]
    simp [ha]

theorem check_allowed_iff (s : LimiterState) (c : String) (ic : Bool)
    (cfg : RateLimitConfig) (t : Nat) (hWF : StateWF s) :
    (check_rate_limit s c ic cfg t).allowed = true ↔
      (WindowMap.count s.second_windows c t < cfg.max_burst ∧
       WindowMap.count s.minute_windows c (t / 60) < minute_limit_of cfg ic ∧
       WindowMap.count s.hour_windows c (t / 3600) < hour_limit_of cfg ic) := by
  have hs := count_cleanup_old_second s (t := t) (k := t) c hWF.2.2 (by omega)
  have hm := count_cleanup_old_minute s (t := t) (k := t / 60) c hWF.1 (by omega)
  have hh := count_cleanup_old_hour s (t := t) (k := t / 3600) c hWF.2.1 (by omega)
  simp only [check_rate_limit]
  rw [hs, hm, hh]
  split_ifs with h1 h2 h3 <;> simp <;> omega

/-- Branch characterisation: denial by burst. -/
theorem check_denied_burst (s : LimiterState) (c : String) (ic : Bool)
    (cfg : RateLimitConfig) (t : Nat) (hWF : StateWF s)
    (h : cfg.max_burst ≤ WindowMap.count s.second_windows c t) :
    (check_rate_limit s c ic cfg t).allowed = false ∧
    (check_rate_limit s c ic cfg t).reason = burst_reason ∧
    (check_rate_limit s c ic cfg t).headers.retry_after = none := by
  have hs := count_cleanup_old_second s (t := t) (k := t) c hWF.2.2 (by omega)
  simp only [check_rate_limit]
  rw [hs]
  rw [if_pos (by exact h)]
  exact ⟨rfl, rfl, rfl⟩

/-- Branch characterisation: denial by the minute ceiling. -/
theorem check_denied_minute (s : LimiterState) (c : String) (ic : Bool)
    (cfg : RateLimitConfig) (t : Nat) (hWF : StateWF s)
    (h1 : WindowMap.count s.second_windows c t < cfg.max_burst)
    (h2 : minute_limit_of cfg ic ≤ WindowMap.count s.minute_windows c (t / 60)) :
    (check_rate_limit s c ic cfg t).allowed = false ∧
    (check_rate_limit s c ic cfg t).reason = minute_reason (minute_limit_of cfg ic) ∧
    (check_rate_limit s c ic cfg t).headers.retry_after = some (60 - t % 60) := by
  have hs := count_cleanup_old_second s (t := t) (k := t) c hWF.2.2 (by omega)
  have hm := count_cleanup_old_minute s (t := t) (k := t / 60) c hWF.1 (by omega)
  simp only [check_rate_limit]
  rw [hs, hm]
  rw [if_neg (by omega), if_pos (by exact h2)]
  exact ⟨rfl, rfl, rfl⟩

/-- Branch characterisation: denial by the hour ceiling. -/
theorem check_denied_hour (s : LimiterState) (c : String) (ic : Bool)
    (cfg : RateLimitConfig) (t : Nat) (hWF : StateWF s)
    (h1 : WindowMap.count s.second_windows c t < cfg.max_burst)
    (h2 : WindowMap.count s.minute_windows c (t / 60) < minute_limit_of cfg ic)
    (h3 : hour_limit_of cfg ic ≤ WindowMap.count s.hour_windows c (t / 3600)) :
    (check_rate_limit s c ic cfg t).allowed = false ∧
    (check_rate_limit s c ic cfg t).reason = hour_reason (hour_limit_of cfg ic) ∧
    (check_rate_limit s c ic cfg t).headers.retry_after = some (3600 - t % 3600) := by
  have hs := count_cleanup_old_second s (t := t) (k := t) c hWF.2.2 (by omega)
  have hm := count_cleanup_old_minute s (t := t) (k := t / 60) c hWF.1 (by omega)
  have hh := count_cleanup_old_hour s (t := t) (k := t / 3600) c hWF.2.1 (by omega)
  simp only [check_rate_limit]
  rw [hs, hm, hh]
  rw [if_neg (by omega), if_neg (by omega), if_pos (by exact h3)]
  exact ⟨rfl, rfl, rfl⟩

/-- Branch characterisation: admission. -/
theorem check_allowed_full (s : LimiterState) (c : String) (ic : Bool)
    (cfg : RateLimitConfig) (t : Nat) (hWF : StateWF s)
    (h1 : WindowMap.count s.second_windows c t < cfg.max_burst)
    (h2 : WindowMap.count s.minute_windows c (t / 60) < minute_limit_of cfg ic)
    (h3 : WindowMap.count s.hour_windows c (t / 3600) < hour_limit_of cfg ic) :
    (check_rate_limit s c ic cfg t).allowed = true ∧
    (check_rate_limit s c ic cfg t).reason = "" ∧
    (check_rate_limit s c ic cfg t).headers.retry_after = none := by
  have hs := count_cleanup_old_second s (t := t) (k := t) c hWF.2.2 (by omega)
  have hm := count_cleanup_old_minute s (t := t) (k := t / 60) c hWF.1 (by omega)
  have hh := count_cleanup_old_hour s (t := t) (k := t / 3600) c hWF.2.1 (by omega)
  simp only [check_rate_limit]
  rw [hs, hm, hh]
  rw [if_neg (by omega), if_neg (by omega), if_neg (by omega)]
  exact ⟨rfl, rfl, rfl⟩

/-- The info headers are the same in all four branches (up to `Retry-After`)
and are computed from the counts read at the start of the call. -/
theorem check_headers (s : LimiterState) (c : String) (ic : Bool)
    (cfg : RateLimitConfig) (t : Nat) (hWF : StateWF s) :
    (check_rate_limit s c ic cfg t).headers.limit_minute = minute_limit_of cfg ic ∧
    (check_rate_limit s c ic cfg t).headers.remaining_minute
      = max 0 ((minute_limit_of cfg ic : Int)
          - WindowMap.count s.minute_windows c (t / 60) - 1) ∧
    (check_rate_limit s c ic cfg t).headers.limit_hour = hour_limit_of cfg ic ∧
    (check_rate_limit s c ic cfg t).headers.remaining_hour
      = max 0 ((hour_limit_of cfg ic : Int)
          - WindowMap.count s.hour_windows c (t / 3600) - 1) := by
  have hm := count_cleanup_old_minute s (t := t) (k := t / 60) c hWF.1 (by omega)
  have hh := count_cleanup_old_hour s (t := t) (k := t / 3600) c hWF.2.1 (by omega)
  simp only [check_rate_limit]
  rw [hm, hh]
  split_ifs <;> exact ⟨rfl, rfl, rfl, rfl⟩

/-- The two limit header fields never depend on the recorded counts. -/
theorem check_limits (s : LimiterState) (c : String) (ic : Bool)
    (cfg : RateLimitConfig) (t : Nat) :
    (check_rate_limit s c ic cfg t).headers.limit_minute = minute_limit_of cfg ic ∧
    (check_rate_limit s c ic cfg t).headers.limit_hour = hour_limit_of cfg ic := by
  simp only [check_rate_limit]
  split_ifs <;> exact ⟨rfl, rfl⟩

theorem runChecks_cons (cfg : RateLimitConfig) (S : LimiterState) (a : Call)
    (rest : List Call) :
    runChecks cfg S (a :: rest)
      = (a, (check_rate_limit S a.client a.chat cfg a.time).allowed)
        :: runChecks cfg (check_rate_limit S a.client a.chat cfg a.time).state rest :=
  rfl

theorem clientOutcomes_cons (A : String) (p : Call × Bool) (l : List (Call × Bool)) :
    clientOutcomes A (p :: l)
      = if p.1.client = A then p.2 :: clientOutcomes A l else clientOutcomes A l := by
  by_cases h : p.1.client = A <;> simp [clientOutcomes, List.filter_cons, h]

theorem Agree_self (A : String) (S : LimiterState) (b : Nat) : Agree A S S b :=
  ⟨fun _ _ => rfl, fun _ _ => rfl, fun _ _ => rfl⟩

/-- A call by `A` itself at a time `t ≥ b` has the same outcome in two
`Agree`-related states, and the resulting states agree at horizon `t`. -/
theorem check_agree_same (A : String) (ic : Bool) (cfg : RateLimitConfig)
    {S S' : LimiterState} {b t : Nat} (hWF : StateWF S) (hWF' : StateWF S')
    (hA : Agree A S S' b) (hbt : b ≤ t) :
    (check_rate_limit S A ic cfg t).allowed
        = (check_rate_limit S' A ic cfg t).allowed ∧
      Agree A (check_rate_limit S A ic cfg t).state
        (check_rate_limit S' A ic cfg t).state t := by
  obtain ⟨hsec, hmin, hhour⟩ := hA
  have hdm : b / 60 ≤ t / 60 := Nat.div_le_div_right hbt
  have hdh : b / 3600 ≤ t / 3600 := Nat.div_le_div_right hbt
  have hcs := hsec t (by omega)
  have hcm := hmin (t / 60) (by omega)
  have hch := hhour (t / 3600) (by omega)
  have hall : (check_rate_limit S A ic cfg t).allowed
      = (check_rate_limit S' A ic cfg t).allowed := by
    have h1 := check_allowed_iff S A ic cfg t hWF
    have h2 := check_allowed_iff S' A ic cfg t hWF'
    rw [hcs, hcm, hch] at h1
    have hiff : (check_rate_limit S A ic cfg t).allowed = true ↔
        (check_rate_limit S' A ic cfg t).allowed = true := h1.trans h2.symm
    cases ha2 : (check_rate_limit S A ic cfg t).allowed <;>
      cases hb2 : (check_rate_limit S' A ic cfg t).allowed
    · rfl
    · rw [ha2, hb2] at hiff
      simp at hiff
    · rw [ha2, hb2] at hiff
      simp at hiff
    · rfl
  refine ⟨hall, ?_, ?_, ?_⟩
  · intro k hk
    rw [check_count_second S A A ic cfg hWF hk,
      check_count_second S' A A ic cfg hWF' hk, hsec k (by omega), hall]
  · intro k hk
    rw [check_count_minute S A A ic cfg hWF hk,
      check_count_minute S' A A ic cfg hWF' hk, hmin k (by omega), hall]
  · intro k hk
    rw [check_count_hour S A A ic cfg hWF hk,
      check_count_hour S' A A ic cfg hWF' hk, hhour k (by omega), hall]

/-- A call by another client `B` at a time `t ≥ b` leaves all of `A`'s
windows at the new horizon `t` untouched. -/
theorem check_agree_other (A B : String) (ic : Bool) (cfg : RateLimitConfig)
    {S S' : LimiterState} {b t : Nat} (hne : B ≠ A) (hWF : StateWF S)
    (hA : Agree A S S' b) (hbt : b ≤ t) :
    Agree A (check_rate_limit S B ic cfg t).state S' t := by
  obtain ⟨hsec, hmin, hhour⟩ := hA
  have hdm : b / 60 ≤ t / 60 := Nat.div_le_div_right hbt
  have hdh : b / 3600 ≤ t / 3600 := Nat.div_le_div_right hbt
  refine ⟨?_, ?_, ?_⟩
  · intro k hk
    rw [check_count_second S B A ic cfg hWF hk,
      if_neg (fun h => hne h.2.1.symm)]
    simpa using hsec k (by omega)
  · intro k hk
    rw [check_count_minute S B A ic cfg hWF hk,
      if_neg (fun h => hne h.2.1.symm)]
    simpa using hmin k (by omega)
  · intro k hk
    rw [check_count_hour S B A ic cfg hWF hk,
      if_neg (fun h => hne h.2.1.symm)]
    simpa using hhour k (by omega)

/-- Main induction for client independence: over a time-ordered trace whose
times stay above the horizon, the outcomes of `A`'s calls coincide with the
outcomes of running `A`'s calls alone from any `Agree`-related state. -/
theorem runChecks_indep (A : String) (cfg : RateLimitConfig) :
    ∀ (calls : List Call) (S S' : LimiterState) (b : Nat),
      StateWF S → StateWF S' → Agree A S S' b →
      (∀ a ∈ calls, b ≤ a.time) →
      List.Pairwise (fun x y => x.time ≤ y.time) calls →
      clientOutcomes A (runChecks cfg S calls)
        = clientOutcomes A
            (runChecks cfg S' (calls.filter (fun a => a.client == A))) := by
  intro calls
  induction calls with
  | nil =>
    intro S S' b _ _ _ _ _
    rfl
  | cons a rest ih =>
    intro S S' b hWF hWF' hA hb hp
    have hbt : b ≤ a.time := hb a (List.mem_cons_self _ _)
    have hrest : ∀ x ∈ rest, a.time ≤ x.time := (List.pairwise_cons.mp hp).1
    have hptail := (List.pairwise_cons.mp hp).2
    by_cases hac : a.client = A
    · have hfilter : (a :: rest).filter (fun x => x.client == A)
          = a :: rest.filter (fun x => x.client == A) := by
        simp [List.filter_cons, hac]
      rw [hfilter, runChecks_cons, runChecks_cons, clientOutcomes_cons,
        clientOutcomes_cons, if_pos hac, if_pos hac, hac]
      obtain ⟨hall, hA2⟩ := check_agree_same A a.chat cfg hWF hWF'
        (t := a.time) hA hbt
      rw [hall]
      congr 1
      exact ih _ _ a.time (StateWF_check _ _ _ _ _ hWF)
        (StateWF_check _ _ _ _ _ hWF') hA2 hrest hptail
    · have hfilter : (a :: rest).filter (fun x => x.client == A)
          = rest.filter (fun x => x.client == A) := by
        simp [List.filter_cons, hac]
      rw [hfilter, runChecks_cons, clientOutcomes_cons, if_neg hac]
      exact ih _ _ a.time (StateWF_check _ _ _ _ _ hWF) hWF'
        (check_agree_other A a.client a.chat cfg hac hWF hA hbt) hrest hptail

theorem checkN_succ (cfg : RateLimitConfig) (s : LimiterState) (c : String)
    (ic : Bool) (t n : Nat) :
    checkN cfg s c ic t (n + 1)
      = (check_rate_limit (checkN cfg s c ic t n) c ic cfg t).state := rfl

theorem checkN_zero (cfg : RateLimitConfig) (s : LimiterState) (c : String)
    (ic : Bool) (t : Nat) : checkN cfg s c ic t 0 = s := rfl

/-- C1: `check_rate_limit` evaluates burst, then minute, then hour, and the
first failing check determines the denial and its reason.  In particular with
`max_burst = 3`: whenever three same-second calls by one client were all
admitted, a fourth call in that second is denied with the burst reason no
matter how much minute or hour budget remains; and starting from zero usage
with both ceilings at least 3, the first three calls are indeed admitted and
the fourth is denied with the burst reason. -/
theorem C1_fixed_order_and_burst :
    (∀ (s : LimiterState) (c : String) (ic : Bool) (cfg : RateLimitConfig) (t : Nat),
      StateWF s →
      (cfg.max_burst ≤ WindowMap.count s.second_windows c t →
        (check_rate_limit s c ic cfg t).allowed = false ∧
        (check_rate_limit s c ic cfg t).reason = burst_reason) ∧
      (WindowMap.count s.second_windows c t < cfg.max_burst →
        minute_limit_of cfg ic ≤ WindowMap.count s.minute_windows c (t / 60) →
        (check_rate_limit s c ic cfg t).allowed = false ∧
        (check_rate_limit s c ic cfg t).reason
          = minute_reason (minute_limit_of cfg ic)) ∧
      (WindowMap.count s.second_windows c t < cfg.max_burst →
        WindowMap.count s.minute_windows c (t / 60) < minute_limit_of cfg ic →
        hour_limit_of cfg ic ≤ WindowMap.count s.hour_windows c (t / 3600) →
        (check_rate_limit s c ic cfg t).allowed = false ∧
        (check_rate_limit s c ic cfg t).reason
          = hour_reason (hour_limit_of cfg ic)) ∧
      (WindowMap.count s.second_windows c t < cfg.max_burst →
        WindowMap.count s.minute_windows c (t / 60) < minute_limit_of cfg ic →
        WindowMap.count s.hour_windows c (t / 3600) < hour_limit_of cfg ic →
        (check_rate_limit s c ic cfg t).allowed = true)) ∧
    (∀ (s : LimiterState) (c : String) (ic : Bool) (cfg : RateLimitConfig) (t : Nat),
      StateWF s → cfg.max_burst = 3 →
      (check_rate_limit (checkN cfg s c ic t 0) c ic cfg t).allowed = true →
      (check_rate_limit (checkN cfg s c ic t 1) c ic cfg t).allowed = true →
      (check_rate_limit (checkN cfg s c ic t 2) c ic cfg t).allowed = true →
      (check_rate_limit (checkN cfg s c ic t 3) c ic cfg t).allowed = false ∧
      (check_rate_limit (checkN cfg s c ic t 3) c ic cfg t).reason = burst_reason) ∧
    (∀ (s : LimiterState) (c : String) (ic : Bool) (cfg : RateLimitConfig) (t : Nat),
      StateWF s → cfg.max_burst = 3 →
      3 ≤ minute_limit_of cfg ic → 3 ≤ hour_limit_of cfg ic →
      WindowMap.count s.second_windows c t = 0 →
      WindowMap.count s.minute_windows c (t / 60) = 0 →
      WindowMap.count s.hour_windows c (t / 3600) = 0 →
      ((check_rate_limit (checkN cfg s c ic t 0) c ic cfg t).allowed = true ∧
       (check_rate_limit (checkN cfg s c ic t 1) c ic cfg t).allowed = true ∧
       (check_rate_limit (checkN cfg s c ic t 2) c ic cfg t).allowed = true) ∧
      (check_rate_limit (checkN cfg s c ic t 3) c ic cfg t).allowed = false ∧
      (check_rate_limit (checkN cfg s c ic t 3) c ic cfg t).reason = burst_reason) := by
  have wf1 : ∀ (cfg : RateLimitConfig) (s : LimiterState) (c : String) (ic : Bool)
      (t n : Nat), StateWF s → StateWF (checkN cfg s c ic t n) := by
    intro cfg s c ic t n hWF
    induction n with
    | zero => exact hWF
    | succ n ihn => exact StateWF_check _ _ _ _ _ ihn
  have step : ∀ (cfg : RateLimitConfig) (s : LimiterState) (c : String) (ic : Bool)
      (t n : Nat), StateWF s →
      (check_rate_limit (checkN cfg s c ic t n) c ic cfg t).allowed = true →
      WindowMap.count (checkN cfg s c ic t (n + 1)).second_windows c t
        = WindowMap.count (checkN cfg s c ic t n).second_windows c t + 1 := by
    intro cfg s c ic t n hWF ha
    rw [checkN_succ]
    have h := check_count_second (checkN cfg s c ic t n) c c ic cfg
      (wf1 cfg s c ic t n hWF) (t := t) (k := t) (by omega)
    rw [h, if_pos ⟨ha, rfl, rfl⟩]
  have part2 : ∀ (s : LimiterState) (c : String) (ic : Bool)
      (cfg : RateLimitConfig) (t : Nat),
      StateWF s → cfg.max_burst = 3 →
      (check_rate_limit (checkN cfg s c ic t 0) c ic cfg t).allowed = true →
      (check_rate_limit (checkN cfg s c ic t 1) c ic cfg t).allowed = true →
      (check_rate_limit (checkN cfg s c ic t 2) c ic cfg t).allowed = true →
      (check_rate_limit (checkN cfg s c ic t 3) c ic cfg t).allowed = false ∧
      (check_rate_limit (checkN cfg s c ic t 3) c ic cfg t).reason = burst_reason := by
    intro s c ic cfg t hWF hmb a1 a2 a3
    have e1 := step cfg s c ic t 0 hWF a1
    have e2 := step cfg s c ic t 1 hWF a2
    have e3 := step cfg s c ic t 2 hWF a3
    have hge : cfg.max_burst
        ≤ WindowMap.count (checkN cfg s c ic t 3).second_windows c t := by
      rw [e3, e2, e1, hmb]
      omega
    have hden := check_denied_burst (checkN cfg s c ic t 3) c ic cfg t
      (wf1 cfg s c ic t 3 hWF) hge
    exact ⟨hden.1, hden.2.1⟩
  refine ⟨?_, part2, ?_⟩
  · intro s c ic cfg t hWF
    refine ⟨?_, ?_, ?_, ?_⟩
    · intro h
      have hd := check_denied_burst s c ic cfg t hWF h
      exact ⟨hd.1, hd.2.1⟩
    · intro h1 h2
      have hd := check_denied_minute s c ic cfg t hWF h1 h2
      exact ⟨hd.1, hd.2.1⟩
    · intro h1 h2 h3
      have hd := check_denied_hour s c ic cfg t hWF h1 h2 h3
      exact ⟨hd.1, hd.2.1⟩
    · intro h1 h2 h3
      exact (check_allowed_full s c ic cfg t hWF h1 h2 h3).1
  · intro s c ic cfg t hWF hmb hml hhl hz1 hz2 hz3
    have stepm : ∀ n, StateWF (checkN cfg s c ic t n) →
        (check_rate_limit (checkN cfg s c ic t n) c ic cfg t).allowed = true →
        WindowMap.count (checkN cfg s c ic t (n + 1)).minute_windows c (t / 60)
          = WindowMap.count (checkN cfg s c ic t n).minute_windows c (t / 60) + 1 := by
      intro n hW ha
      rw [checkN_succ]
      have h := check_count_minute (checkN cfg s c ic t n) c c ic cfg hW
        (t := t) (k := t / 60) (by omega)
      rw [h, if_pos ⟨ha, rfl, rfl⟩]
    have steph : ∀ n, StateWF (checkN cfg s c ic t n) →
        (check_rate_limit (checkN cfg s c ic t n) c ic cfg t).allowed = true →
        WindowMap.count (checkN cfg s c ic t (n + 1)).hour_windows c (t / 3600)
          = WindowMap.count (checkN cfg s c ic t n).hour_windows c (t / 3600) + 1 := by
      intro n hW ha
      rw [checkN_succ]
      have h := check_count_hour (checkN cfg s c ic t n) c c ic cfg hW
        (t := t) (k := t / 3600) (by omega)
      rw [h, if_pos ⟨ha, rfl, rfl⟩]
    have a1 : (check_rate_limit (checkN cfg s c ic t 0) c ic cfg t).allowed = true :=
      (check_allowed_full s c ic cfg t hWF (by omega) (by omega) (by omega)).1
    have s1 := step cfg s c ic t 0 hWF a1
    have m1 := stepm 0 hWF a1
    have h1 := steph 0 hWF a1
    have a2 : (check_rate_limit (checkN cfg s c ic t 1) c ic cfg t).allowed = true :=
      (check_allowed_full (checkN cfg s c ic t 1) c ic cfg t (wf1 cfg s c ic t 1 hWF)
        (by rw [s1, checkN_zero, hz1]; omega) (by rw [m1, checkN_zero, hz2]; omega)
        (by rw [h1, checkN_zero, hz3]; omega)).1
    have s2 := step cfg s c ic t 1 hWF a2
    have m2 := stepm 1 (wf1 cfg s c ic t 1 hWF) a2
    have h2 := steph 1 (wf1 cfg s c ic t 1 hWF) a2
    have a3 : (check_rate_limit (checkN cfg s c ic t 2) c ic cfg t).allowed = true :=
      (check_allowed_full (checkN cfg s c ic t 2) c ic cfg t (wf1 cfg s c ic t 2 hWF)
        (by rw [s2, s1, checkN_zero, hz1]; omega)
        (by rw [m2, m1, checkN_zero, hz2]; omega)
        (by rw [h2, h1, checkN_zero, hz3]; omega)).1
    exact ⟨⟨a1, a2, a3⟩, part2 s c ic cfg t hWF hmb a1 a2 a3⟩

/-- C1 witness: from a fresh limiter with `max_burst = 3`, three calls in
second 1000 are admitted and the fourth is denied with the burst reason. -/
theorem C1_witness :
    ((check_rate_limit
        (checkN { max_burst := 3 } (RateLimiter.init 0) "a" false 1000 3)
        "a" false { max_burst := 3 } 1000).allowed = false) ∧
    (check_rate_limit
        (checkN { max_burst := 3 } (RateLimiter.init 0) "a" false 1000 3)
        "a" false { max_burst := 3 } 1000).reason = burst_reason := by
  have h := C1_fixed_order_and_burst.2.2 (RateLimiter.init 0) "a" false
    { max_burst := 3 } 1000 (StateWF_init 0) rfl (by decide) (by decide)
    (by decide) (by decide) (by decide)
  exact h.2

/-- C2: every call returns the info headers — effective minute ceiling,
minute remaining `max(0, ceiling - count - 1)`, effective hour ceiling, hour
remaining likewise — over the counts read at the start of the call; and after
an admitted call the remaining values within the same window never grow. -/
theorem C2_info_headers (s : LimiterState) (c : String) (ic : Bool)
    (cfg : RateLimitConfig) (t : Nat) (hWF : StateWF s) :
    ((check_rate_limit s c ic cfg t).headers.limit_minute = minute_limit_of cfg ic ∧
     (check_rate_limit s c ic cfg t).headers.remaining_minute
       = max 0 ((minute_limit_of cfg ic : Int)
           - WindowMap.count s.minute_windows c (t / 60) - 1) ∧
     (check_rate_limit s c ic cfg t).headers.limit_hour = hour_limit_of cfg ic ∧
     (check_rate_limit s c ic cfg t).headers.remaining_hour
       = max 0 ((hour_limit_of cfg ic : Int)
           - WindowMap.count s.hour_windows c (t / 3600) - 1)) ∧
    ((check_rate_limit s c ic cfg t).allowed = true →
      ∀ t', t / 60 = t' / 60 →
        (check_rate_limit (check_rate_limit s c ic cfg t).state c ic cfg
            t').headers.remaining_minute
          ≤ (check_rate_limit s c ic cfg t).headers.remaining_minute) ∧
    ((check_rate_limit s c ic cfg t).allowed = true →
      ∀ t', t / 3600 = t' / 3600 →
        (check_rate_limit (check_rate_limit s c ic cfg t).state c ic cfg
            t').headers.remaining_hour
          ≤ (check_rate_limit s c ic cfg t).headers.remaining_hour) := by
  have hH := check_headers s c ic cfg t hWF
  have hWF2 := StateWF_check s c ic cfg t hWF
  refine ⟨hH, ?_, ?_⟩
  · intro ha t' hw
    have hH2 := check_headers (check_rate_limit s c ic cfg t).state c ic cfg t' hWF2
    rw [hH2.2.1, hH.2.1, ← hw]
    have hc := check_count_minute s c c ic cfg hWF (t := t) (k := t / 60) (by omega)
    rw [hc, if_pos ⟨ha, rfl, rfl⟩]
    apply max_le_max (le_refl (0 : Int))
    push_cast
    omega
  · intro ha t' hw
    have hH2 := check_headers (check_rate_limit s c ic cfg t).state c ic cfg t' hWF2
    rw [hH2.2.2.2, hH.2.2.2, ← hw]
    have hc := check_count_hour s c c ic cfg hWF (t := t) (k := t / 3600) (by omega)
    rw [hc, if_pos ⟨ha, rfl, rfl⟩]
    apply max_le_max (le_refl (0 : Int))
    push_cast
    omega

/-- C2 witness: a concrete admitted call from a fresh limiter, with the
header formula and the monotone-decrease of the following call evaluated. -/
theorem C2_witness :
    (check_rate_limit (RateLimiter.init 0) "a" false rate_limit_config
        90).headers.remaining_minute
      = max 0 ((minute_limit_of rate_limit_config false : Int)
          - WindowMap.count (RateLimiter.init 0).minute_windows "a" (90 / 60) - 1) ∧
    (check_rate_limit
        (check_rate_limit (RateLimiter.init 0) "a" false rate_limit_config 90).state
        "a" false rate_limit_config 95).headers.remaining_minute
      ≤ (check_rate_limit (RateLimiter.init 0) "a" false rate_limit_config
          90).headers.remaining_minute := by
  have h := C2_info_headers (RateLimiter.init 0) "a" false rate_limit_config 90
    (StateWF_init 0)
  exact ⟨h.1.2.1, h.2.1 (by decide) 95 (by decide)⟩

/-- C3 counterexample: a denied call (burst-saturated client `a`) whose
embedded cleanup pass erases another client's stale minute bucket, so a
denied check does change another client's counters. -/
theorem C3_counterexample :
    (check_rate_limit c3_state "a" false rate_limit_config 200).allowed = false ∧
    WindowMap.count c3_state.minute_windows "b" 0 = 5 ∧
    WindowMap.count (check_rate_limit c3_state "a" false rate_limit_config
        200).state.minute_windows "b" 0 = 0 := by
  decide

/-- C3 (amended): an admitted check increments the caller's current second,
minute and hour buckets by exactly 1; a denied check leaves all three current
buckets of the caller unchanged; and no bucket of any client that is still
inside the retention window (key at least current − 1) changes, other than
the caller's current buckets — the only further effect is the cleanup pass,
which may delete buckets that have fallen outside the retention window. -/
theorem C3_increment_and_frame (s : LimiterState) (c : String) (ic : Bool)
    (cfg : RateLimitConfig) (t : Nat) (hWF : StateWF s) :
    ((check_rate_limit s c ic cfg t).allowed = true →
      WindowMap.count (check_rate_limit s c ic cfg t).state.second_windows c t
        = WindowMap.count s.second_windows c t + 1 ∧
      WindowMap.count (check_rate_limit s c ic cfg t).state.minute_windows c (t / 60)
        = WindowMap.count s.minute_windows c (t / 60) + 1 ∧
      WindowMap.count (check_rate_limit s c ic cfg t).state.hour_windows c (t / 3600)
        = WindowMap.count s.hour_windows c (t / 3600) + 1) ∧
    ((check_rate_limit s c ic cfg t).allowed = false →
      WindowMap.count (check_rate_limit s c ic cfg t).state.second_windows c t
        = WindowMap.count s.second_windows c t ∧
      WindowMap.count (check_rate_limit s c ic cfg t).state.minute_windows c (t / 60)
        = WindowMap.count s.minute_windows c (t / 60) ∧
      WindowMap.count (check_rate_limit s c ic cfg t).state.hour_windows c (t / 3600)
        = WindowMap.count s.hour_windows c (t / 3600)) ∧
    (∀ (c' : String) (k : Nat), t - 1 ≤ k → ¬(c' = c ∧ k = t) →
      WindowMap.count (check_rate_limit s c ic cfg t).state.second_windows c' k
        = WindowMap.count s.second_windows c' k) ∧
    (∀ (c' : String) (k : Nat), t / 60 - 1 ≤ k → ¬(c' = c ∧ k = t / 60) →
      WindowMap.count (check_rate_limit s c ic cfg t).state.minute_windows c' k
        = WindowMap.count s.minute_windows c' k) ∧
    (∀ (c' : String) (k : Nat), t / 3600 - 1 ≤ k → ¬(c' = c ∧ k = t / 3600) →
      WindowMap.count (check_rate_limit s c ic cfg t).state.hour_windows c' k
        = WindowMap.count s.hour_windows c' k) := by
  refine ⟨?_, ?_, ?_, ?_, ?_⟩
  · intro ha
    refine ⟨?_, ?_, ?_⟩
    · rw [check_count_second s c c ic cfg hWF (t := t) (k := t) (by omega),
        if_pos ⟨ha, rfl, rfl⟩]
    · rw [check_count_minute s c c ic cfg hWF (t := t) (k := t / 60) (by omega),
        if_pos ⟨ha, rfl, rfl⟩]
    · rw [check_count_hour s c c ic cfg hWF (t := t) (k := t / 3600) (by omega),
        if_pos ⟨ha, rfl, rfl⟩]
  · intro ha
    refine ⟨?_, ?_, ?_⟩
    · rw [check_count_second s c c ic cfg hWF (t := t) (k := t) (by omega),
        if_neg (fun hcc => by simp [ha] at hcc)]
      omega
    · rw [check_count_minute s c c ic cfg hWF (t := t) (k := t / 60) (by omega),
        if_neg (fun hcc => by simp [ha] at hcc)]
      omega
    · rw [check_count_hour s c c ic cfg hWF (t := t) (k := t / 3600) (by omega),
        if_neg (fun hcc => by simp [ha] at hcc)]
      omega
  · intro c' k hk hcc
    rw [check_count_second s c c' ic cfg hWF hk,
      if_neg (fun h => hcc ⟨h.2.1, h.2.2⟩)]
    omega
  · intro c' k hk hcc
    rw [check_count_minute s c c' ic cfg hWF hk,
      if_neg (fun h => hcc ⟨h.2.1, h.2.2⟩)]
    omega
  · intro c' k hk hcc
    rw [check_count_hour s c c' ic cfg hWF hk,
      if_neg (fun h => hcc ⟨h.2.1, h.2.2⟩)]
    omega

/-- C3 witness: concrete admitted call increments the caller's second bucket. -/
theorem C3_witness :
    WindowMap.count (check_rate_limit (RateLimiter.init 0) "a" false
        rate_limit_config 100).state.second_windows "a" 100
      = WindowMap.count (RateLimiter.init 0).second_windows "a" 100 + 1 := by
  have h := C3_increment_and_frame (RateLimiter.init 0) "a" false
    rate_limit_config 100 (StateWF_init 0)
  exact (h.1 (by decide)).1

/-- C4 counterexample: a burst denial returns the header set without any
retry-after value, contrary to the claim that every denial carries one. -/
theorem C4_counterexample :
    (check_rate_limit c4_state "a" false rate_limit_config 50).allowed = false ∧
    (check_rate_limit c4_state "a" false rate_limit_config 50).reason = burst_reason ∧
    (check_rate_limit c4_state "a" false rate_limit_config 50).headers.retry_after
      = none := by
  decide

/-- C4 (amended): every denial makes the middleware answer with a 429 and the
structured body `{error, detail, type}` carrying the denial reason; minute and
hour denials additionally carry a numeric retry-after (seconds to the window
boundary), while a burst denial carries no retry-after. -/
theorem C4_denial_responses (s : LimiterState) (cfg : RateLimitConfig)
    (req : Request) (t : Nat) (hWF : StateWF s)
    (hex : req.path ∉ cfg.exempt_paths) :
    ((check_rate_limit s req.client_ip (is_chat_request req.path req.method)
        cfg t).allowed = false →
      (dispatch s cfg req t).1
        = .tooMany 429
            { error := "rate_limit_exceeded"
              detail := (check_rate_limit s req.client_ip
                  (is_chat_request req.path req.method) cfg t).reason
              type := "TooManyRequests" }
            (check_rate_limit s req.client_ip
              (is_chat_request req.path req.method) cfg t).headers) ∧
    (cfg.max_burst ≤ WindowMap.count s.second_windows req.client_ip t →
      (check_rate_limit s req.client_ip (is_chat_request req.path req.method)
          cfg t).allowed = false ∧
      (check_rate_limit s req.client_ip (is_chat_request req.path req.method)
          cfg t).headers.retry_after = none) ∧
    (WindowMap.count s.second_windows req.client_ip t < cfg.max_burst →
      minute_limit_of cfg (is_chat_request req.path req.method)
          ≤ WindowMap.count s.minute_windows req.client_ip (t / 60) →
      (check_rate_limit s req.client_ip (is_chat_request req.path req.method)
          cfg t).allowed = false ∧
      (check_rate_limit s req.client_ip (is_chat_request req.path req.method)
          cfg t).headers.retry_after = some (60 - t % 60)) ∧
    (WindowMap.count s.second_windows req.client_ip t < cfg.max_burst →
      WindowMap.count s.minute_windows req.client_ip (t / 60)
          < minute_limit_of cfg (is_chat_request req.path req.method) →
      hour_limit_of cfg (is_chat_request req.path req.method)
          ≤ WindowMap.count s.hour_windows req.client_ip (t / 3600) →
      (check_rate_limit s req.client_ip (is_chat_request req.path req.method)
          cfg t).allowed = false ∧
      (check_rate_limit s req.client_ip (is_chat_request req.path req.method)
          cfg t).headers.retry_after = some (3600 - t % 3600)) := by
  refine ⟨?_, ?_, ?_, ?_⟩
  · intro h
    simp only [dispatch]
    rw [if_neg hex, h]
    simp
  · intro h
    have hd := check_denied_burst s req.client_ip
      (is_chat_request req.path req.method) cfg t hWF h
    exact ⟨hd.1, hd.2.2⟩
  · intro h1 h2
    have hd := check_denied_minute s req.client_ip
      (is_chat_request req.path req.method) cfg t hWF h1 h2
    exact ⟨hd.1, hd.2.2⟩
  · intro h1 h2 h3
    have hd := check_denied_hour s req.client_ip
      (is_chat_request req.path req.method) cfg t hWF h1 h2 h3
    exact ⟨hd.1, hd.2.2⟩

/-- C4 witness: a concrete minute-limit denial produces the 429 body and a
retry-after of the seconds left in the minute. -/
theorem C4_witness :
    (check_rate_limit c4_state "b" false { requests_per_minute := 0 }
        50).headers.retry_after = some 10 ∧
    (dispatch c4_state { requests_per_minute := 0 }
        { path := "/test".toList, method := "GET", client_ip := "b" } 50).1
      = .tooMany 429
          { error := "rate_limit_exceeded"
            detail := (check_rate_limit c4_state "b" false
                { requests_per_minute := 0 } 50).reason
            type := "TooManyRequests" }
          (check_rate_limit c4_state "b" false { requests_per_minute := 0 }
            50).headers := by
  have h := C4_denial_responses c4_state { requests_per_minute := 0 }
    { path := "/test".toList, method := "GET", client_ip := "b" } 50
    (StateWF_of_nodup c4_state (by decide)) (by decide)
  refine ⟨?_, h.1 (by decide)⟩
  have h2 := h.2.2.1 (by decide) (by decide)
  exact h2.2

/-- C5: a bucket count can only drop when the bucket has fallen outside the
retention window (key below current − 1); and once a cleanup pass actually
runs, every surviving bucket key at each granularity is at least the current
bucket minus 1, and no client with an empty window table survives. -/
theorem C5_monotone_and_retention (s : LimiterState) (c : String) (ic : Bool)
    (cfg : RateLimitConfig) (t : Nat) (hWF : StateWF s) :
    (∀ (c' : String) (k : Nat),
      WindowMap.count (check_rate_limit s c ic cfg t).state.second_windows c' k
          < WindowMap.count s.second_windows c' k → k < t - 1) ∧
    (∀ (c' : String) (k : Nat),
      WindowMap.count (check_rate_limit s c ic cfg t).state.minute_windows c' k
          < WindowMap.count s.minute_windows c' k → k < t / 60 - 1) ∧
    (∀ (c' : String) (k : Nat),
      WindowMap.count (check_rate_limit s c ic cfg t).state.hour_windows c' k
          < WindowMap.count s.hour_windows c' k → k < t / 3600 - 1) ∧
    (60 ≤ t - s.last_cleanup →
      (∀ e ∈ (cleanup_old_windows s t).minute_windows,
        e.2 ≠ [] ∧ ∀ q ∈ e.2, t / 60 - 1 ≤ q.1) ∧
      (∀ e ∈ (cleanup_old_windows s t).hour_windows,
        e.2 ≠ [] ∧ ∀ q ∈ e.2, t / 3600 - 1 ≤ q.1) ∧
      (∀ e ∈ (cleanup_old_windows s t).second_windows,
        e.2 ≠ [] ∧ ∀ q ∈ e.2, t - 1 ≤ q.1)) := by
  refine ⟨?_, ?_, ?_, ?_⟩
  · intro c' k hlt
    by_contra hk
    push_neg at hk
    rw [check_count_second s c c' ic cfg hWF hk] at hlt
    split at hlt <;> omega
  · intro c' k hlt
    by_contra hk
    push_neg at hk
    rw [check_count_minute s c c' ic cfg hWF hk] at hlt
    split at hlt <;> omega
  · intro c' k hlt
    by_contra hk
    push_neg at hk
    rw [check_count_hour s c c' ic cfg hWF hk] at hlt
    split at hlt <;> omega
  · intro h60
    unfold cleanup_old_windows
    rw [if_neg (by omega)]
    exact ⟨WindowMap.mem_cleanup _ _, WindowMap.mem_cleanup _ _,
      WindowMap.mem_cleanup _ _⟩

/-- C5 witness: a concrete call whose cleanup pass prunes a stale bucket, with
the retention property evaluated on the result. -/
theorem C5_witness :
    (∀ e ∈ (cleanup_old_windows c3_state 200).minute_windows,
      e.2 ≠ [] ∧ ∀ q ∈ e.2, 200 / 60 - 1 ≤ q.1) ∧
    (WindowMap.count (check_rate_limit c3_state "a" false rate_limit_config
        200).state.minute_windows "b" 0
      < WindowMap.count c3_state.minute_windows "b" 0 → (0 : Nat) < 200 / 60 - 1) := by
  have h := C5_monotone_and_retention c3_state "a" false rate_limit_config 200
    (StateWF_of_nodup c3_state (by decide))
  refine ⟨(h.2.2.2 (by decide)).1, ?_⟩
  intro hlt
  exact h.2.1 "b" 0 hlt

/-- C6: counters of distinct clients are fully independent — over any
time-ordered call trace, the admit/deny outcomes of one client's calls are
the same as when all other clients' calls are removed from the trace. -/
theorem C6_client_independence (cfg : RateLimitConfig) (s : LimiterState)
    (calls : List Call) (A : String) (hWF : StateWF s)
    (hmono : List.Pairwise (fun x y => x.time ≤ y.time) calls) :
    clientOutcomes A (runChecks cfg s calls)
      = clientOutcomes A (runChecks cfg s (calls.filter (fun a => a.client == A))) :=
  runChecks_indep A cfg calls s s 0 hWF hWF (Agree_self A s 0)
    (fun _ _ => Nat.zero_le _) hmono

/-- C6 witness: a concrete interleaved trace of clients `a` and `b`. -/
theorem C6_witness :
    clientOutcomes "a" (runChecks rate_limit_config (RateLimiter.init 0) c6_calls)
      = clientOutcomes "a"
          (runChecks rate_limit_config (RateLimiter.init 0)
            (c6_calls.filter (fun a => a.client == "a"))) :=
  C6_client_independence rate_limit_config (RateLimiter.init 0) c6_calls "a"
    (StateWF_init 0) (by decide)

/-- C7: a request is classified as chat iff its path ends with the chat-send
path, its method is POST and the path contains none of the session-management
sub-paths; and for every non-exempt request the middleware's info headers use
the chat ceilings exactly when the request is so classified. -/
theorem C7_chat_classification :
    (∀ (path : List Char) (method : String),
      is_chat_request path method = true ↔
        ("/api/chat".toList <:+ path ∧ method = "POST" ∧
         ∀ p ∈ session_management_paths, ¬ p <:+: path)) ∧
    (∀ (s : LimiterState) (cfg : RateLimitConfig) (req : Request) (t : Nat),
      req.path ∉ cfg.exempt_paths →
      ((dispatch s cfg req t).1.resultHeaders.map RateHeaders.limit_minute)
          = some (minute_limit_of cfg (is_chat_request req.path req.method)) ∧
      ((dispatch s cfg req t).1.resultHeaders.map RateHeaders.limit_hour)
          = some (hour_limit_of cfg (is_chat_request req.path req.method))) := by
  constructor
  · intro path method
    simp only [is_chat_request, Bool.and_eq_true, decide_eq_true_eq, beq_iff_eq,
      Bool.not_eq_true', List.any_eq_false, decide_eq_false_iff_not]
    tauto
  · intro s cfg req t hex
    have hl := check_limits s req.client_ip
      (is_chat_request req.path req.method) cfg t
    simp only [dispatch]
    rw [if_neg hex]
    by_cases ha : (check_rate_limit s req.client_ip
        (is_chat_request req.path req.method) cfg t).allowed = true
    · rw [if_pos ha]
      simp [MiddlewareResult.resultHeaders, hl.1, hl.2]
    · rw [if_neg ha]
      simp [MiddlewareResult.resultHeaders, hl.1, hl.2]

/-- C7 witness: `POST /api/chat` is chat-classified and gets the chat minute
ceiling in its headers; the `/clear` sub-path under the same prefix is not. -/
theorem C7_witness :
    is_chat_request "/api/chat".toList "POST" = true ∧
    ((dispatch (RateLimiter.init 0) rate_limit_config
        { path := "/api/chat".toList, method := "POST", client_ip := "a" }
        0).1.resultHeaders.map RateHeaders.limit_minute)
      = some (minute_limit_of rate_limit_config
          (is_chat_request "/api/chat".toList "POST")) := by
  refine ⟨(C7_chat_classification.1 _ _).mpr ⟨?_, rfl, ?_⟩,
    (C7_chat_classification.2 (RateLimiter.init 0) rate_limit_config
      { path := "/api/chat".toList, method := "POST", client_ip := "a" } 0 ?_).1⟩
  · decide
  · decide
  · decide

end RateLimit

namespace OpenRouter

theorem string_append_ne (a b : String) (hab : ¬ a.data <+: b.data)
    (d : String) : a ++ d ≠ b := by
  intro he
  apply hab
  refine ⟨d.data, ?_⟩
  have hd : (a ++ d).data = a.data ++ d.data := by
    cases a
    cases d
    rfl
  rw [← hd, he]

/-- C8: a gateway timeout surfaces the dedicated timeout failure (message and
telemetry label "timeout"), and that failure differs — in message and as a
value — from every failure surfaced for another transport error and from every
failure surfaced for a non-success HTTP status. -/
theorem C8_timeout_distinct :
    (∀ d, send_message (.timeout d) = .error timeout_failure) ∧
    timeout_failure.track_label = "timeout" ∧
    (∀ (d : String) (g : Failure), send_message (.transport_error d) = .error g →
      g.track_label = "http_error" ∧ g.message ≠ timeout_failure.message ∧
      g ≠ timeout_failure) ∧
    (∀ (st : Nat) (body : ApiResponse) (g : Failure), st ≠ 200 →
      send_message (.response st body) = .error g →
      g.track_label = "error" ∧ g.message ≠ timeout_failure.message ∧
      g ≠ timeout_failure) := by
  refine ⟨fun _ => rfl, rfl, ?_, ?_⟩
  · intro d g h
    simp only [send_message] at h
    injection h with h
    subst h
    refine ⟨rfl, ?_, ?_⟩
    · exact string_append_ne _ _ (by decide) d
    · intro he
      exact string_append_ne _ _ (by decide) d (congrArg Failure.message he)
  · intro st body g hst h
    simp only [send_message] at h
    rw [if_pos hst] at h
    injection h with h
    subst h
    refine ⟨rfl, ?_, ?_⟩
    · exact string_append_ne _ _ (by decide) (body.error_message.getD unknown_error)
    · intro he
      exact string_append_ne _ _ (by decide) (body.error_message.getD unknown_error)
        (congrArg Failure.message he)

/-- C8 witness: the three failure shapes at concrete inputs. -/
theorem C8_witness :
    send_message (.timeout http_detail) = .error timeout_failure ∧
    ({ py_type := "Exception"
       message := "HTTP error communicating with OpenRouter: " ++ http_detail
       track_label := "http_error" } : Failure) ≠ timeout_failure ∧
    ({ py_type := "Exception"
       message := "OpenRouter API error: " ++ unknown_error
       track_label := "error" } : Failure) ≠ timeout_failure := by
  refine ⟨C8_timeout_distinct.1 http_detail, ?_, ?_⟩
  · exact (C8_timeout_distinct.2.2.1 http_detail _ rfl).2.2
  · exact (C8_timeout_distinct.2.2.2 500 { error_message := none, choices := [] }
      _ (by decide) rfl).2.2

/-- C9 counterexample: a successful gateway listing containing only a paid
model makes `get_available_models` return the static fallback list, not the
(empty) free-filtered gateway list — so the fallback is not returned only on
failure. -/
theorem C9_counterexample :
    free_filter [c9_paid] = [] ∧
    get_available_models (.success [c9_paid]) ≠ free_filter [c9_paid] := by
  exact ⟨by decide, by decide⟩

/-- C9 (amended): the fallback list is returned on gateway failure and also on
a successful listing whose free filter comes out empty; a successful listing
with at least one free model yields exactly the free-filtered gateway list. -/
theorem C9_models_fallback :
    (∀ d, get_available_models (.failure d) = fallback_models) ∧
    (∀ data, free_filter data ≠ [] →
      get_available_models (.success data) = free_filter data) ∧
    (∀ data, free_filter data = [] →
      get_available_models (.success data) = fallback_models) := by
  refine ⟨fun _ => rfl, ?_, ?_⟩
  · intro data h
    simp only [get_available_models]
    rw [if_neg (by simpa using h)]
  · intro data h
    simp only [get_available_models]
    rw [if_pos (by simp [h])]

/-- C9 witness: fallback on failure, filtered list on a free-model success. -/
theorem C9_witness :
    get_available_models (.failure c9_err_detail) = fallback_models ∧
    get_available_models (.success [c9_free]) = free_filter [c9_free] :=
  ⟨C9_models_fallback.1 c9_err_detail,
    C9_models_fallback.2.1 [c9_free] (by decide)⟩

end OpenRouter

namespace ChatDB

/-- C10: sending a chat message never fails with a not-found (or bad-request)
error for any session-id parameter — when the parameter is unparseable or
matches no existing session, a fresh session is silently created and a
successful request returns the fresh session's id. -/
theorem C10_silent_session_creation :
    ∀ (db : List Nat) (uuid_of : String → Option Nat) (sp : Option String)
      (fresh : Nat) (llm : Except OpenRouter.Failure String),
    (∀ d, send_chat_message db uuid_of sp fresh llm ≠ .error (.notFound d)) ∧
    (∀ d, send_chat_message db uuid_of sp fresh llm ≠ .error (.badRequest d)) ∧
    ((parse_session_id uuid_of sp = none ∨
        ∀ i, parse_session_id uuid_of sp = some i → i ∉ db) →
      ∀ content, llm = .ok content →
        send_chat_message db uuid_of sp fresh llm
          = .ok { message := content, success := true, session_id := fresh }) := by
  intro db uuid_of sp fresh llm
  refine ⟨?_, ?_, ?_⟩
  · intro d h
    cases llm with
    | ok content => simp [send_chat_message] at h
    | error f => simp [send_chat_message] at h
  · intro d h
    cases llm with
    | ok content => simp [send_chat_message] at h
    | error f => simp [send_chat_message] at h
  · intro hres content hllm
    subst hllm
    have hfresh : (get_or_create_session db (parse_session_id uuid_of sp) fresh).2
        = fresh := by
      cases hp : parse_session_id uuid_of sp with
      | none => rfl
      | some i =>
        rcases hres with hn | hnotin
        · rw [hp] at hn
          exact absurd hn (by simp)
        · have hni : i ∉ db := hnotin i hp
          simp [get_or_create_session, hni]
    simp only [send_chat_message]
    rw [hfresh]

/-- C10 witness: an unparseable session id with a successful gateway call. -/
theorem C10_witness :
    send_chat_message [1, 2] (fun _ => none) (some c10_param) 7 (.ok c10_reply)
      = .ok { message := c10_reply, success := true, session_id := 7 } := by
  have h := C10_silent_session_creation [1, 2] (fun _ => none) (some c10_param) 7
    (.ok c10_reply)
  exact h.2.2 (Or.inl (by decide)) c10_reply rfl

end ChatDB
